import Mathlib

/-
Shallow embedding of the lock-free utility library:
  MemoryAllocator<T,S>  (lf_memory_allocator.hpp)  - cached memory pool,
  ChunkList<T,N,S>      (lf_chunk_list.hpp)        - unrolled linked list of chunks,
  Pipe<T,N,S>           (lf_pipe.hpp)              - SPSC non-blocking pipe,
  ObjectAllocator<T,S>  (lf_object_allocator.hpp)  - construct/destruct wrapper.

Pointers are modelled as follows: a raw memory block handed out by the system
allocator is a natural number (its address); a nullable pointer is an Option.
A slot of the chunk list is addressed by the identity of its chunk plus the
slot index inside the chunk; the pipe cursors hold such slot addresses and
compare them for identity only, exactly as the C++ code compares T*.

The operations of the source are single-producer / single-consumer; the
embedding gives each operation its sequential small-step meaning, in which a
compare_exchange_strong on the single shared atomic succeeds exactly when the
stored value equals the expected value (there is no third thread that could
interleave, so this is the meaning of every interleaved run of the two roles).

Machine integers: the pool counters of MemoryAllocator<T,S> are C++
std::atomic_uint32_t or std::atomic_uint64_t; their arithmetic is embedded
with an explicit modulus (idxMod) at the exact width the source selects, and
the source expression `2 * S` (unsigned int arithmetic on the uint32_t
template argument S) is embedded with its own explicit % 2^32.
-/

set_option maxRecDepth 10000

/-- Identity of a chunk (the address returned for it by the allocator). -/
abbrev ChunkId := Nat

/-- The address of one element slot: identity of its chunk plus the slot
index in the data array of the chunk. C++ compares such addresses (T*) only for
equality in the pipe protocol. -/
structure Addr where
  chunk : ChunkId
  pos : Nat
deriving DecidableEq, Repr

/-- A nullable slot pointer; none models nullptr. -/
abbrev Ptr := Option Addr

/-- MemoryAllocator<T,0>: thin wrapper over the system allocator
(::operator new / ::operator delete with std::nothrow). The system is
modelled as an inexhaustible supply of fresh block addresses; freed blocks
are recorded so that theorems can observe which blocks were released. -/
structure MemoryAllocator0 where
  next : Nat := 1
  freed : List Nat := []
deriving DecidableEq, Repr

/-- MemoryAllocator<T,0>::alloc: one fresh block from the system. -/
def MemoryAllocator0.alloc (s : MemoryAllocator0) : Nat × MemoryAllocator0 :=
  (s.next, { s with next := s.next + 1 })

/-- MemoryAllocator<T,0>::free: ::operator delete(ptr, nothrow); deleting a
null pointer is a no-op. -/
def MemoryAllocator0.free (p : Option Nat) (s : MemoryAllocator0) : MemoryAllocator0 :=
  match p with
  | none => s
  | some a => { s with freed := s.freed ++ [a] }

/-- MemoryAllocator<T,1>: a single atomic cached block (mPtr) over the
system allocator. -/
structure MemoryAllocator1 where
  mPtr : Option Nat := none
  mAllocator : MemoryAllocator0 := {}
deriving DecidableEq, Repr

/-- MemoryAllocator<T,1>::alloc: tmp = mPtr.exchange(nullptr);
return tmp ? tmp : mAllocator.alloc(). -/
def MemoryAllocator1.alloc (s : MemoryAllocator1) : Nat × MemoryAllocator1 :=
  match s.mPtr with
  | some tmp => (tmp, { s with mPtr := none })
  | none =>
    let r := s.mAllocator.alloc
    (r.1, { s with mPtr := none, mAllocator := r.2 })

/-- MemoryAllocator<T,1>::free: tmp = mPtr.exchange(ptr);
if (tmp) mAllocator.free(tmp). Note that this is NOT a no-op on a null
argument when a block is cached: the cached block is released (the
destructor uses free(nullptr) to drain the cache). -/
def MemoryAllocator1.free (p : Option Nat) (s : MemoryAllocator1) : MemoryAllocator1 :=
  let tmp := s.mPtr
  let s1 := { s with mPtr := p }
  match tmp with
  | some t => { s1 with mAllocator := s1.mAllocator.free (some t) }
  | none => s1

/-- UINT32_MAX. -/
def uint32Max : Nat := 4294967295

/-- The modulus of MemoryAllocator<T,S>::IndexType:
std::conditional_t<(S > (UINT32_MAX / 2)), std::atomic_uint64_t,
std::atomic_uint32_t>; arithmetic on the counters wraps at this width. -/
def idxMod (S : Nat) : Nat := if S > uint32Max / 2 then 2 ^ 64 else 2 ^ 32

/-- The value of the C++ expression `2 * S` inside alloc/free of
MemoryAllocator<T,S>: S is the uint32_t template argument, so the
multiplication is performed in unsigned int (32-bit) arithmetic and wraps
at 2^32 regardless of the width of IndexType. -/
def twoS (S : Nat) : Nat := 2 * S % 2 ^ 32

/-- MemoryAllocator<T,S> (the primary template, used for S not 0 or 1):
a fixed array of S cached block pointers plus head/tail counters into a
virtual index space. The array entries start uninitialised, hence Option. -/
structure MemoryAllocatorS (S : Nat) where
  mQueueBuffer : List (Option Nat)
  mHead : Nat
  mTail : Nat
  mAllocator : MemoryAllocator0
deriving DecidableEq, Repr

/-- MemoryAllocator<T,S>::alloc, sequential meaning (the CAS on mHead
succeeds at its first attempt when no other thread interleaves): if the
cache ring is empty fall through to the system allocator, otherwise take
the block at the physical index of head and advance head to
(head + 1) % (2 * S). -/
def MemoryAllocatorS.alloc {S : Nat} (s : MemoryAllocatorS S) : Nat × MemoryAllocatorS S :=
  if s.mHead = s.mTail then
    let r := s.mAllocator.alloc
    (r.1, { s with mAllocator := r.2 })
  else
    let nHead := (s.mHead + 1) % idxMod S % twoS S
    let rHead := if s.mHead < S then s.mHead else s.mHead - S
    let ptr := s.mQueueBuffer.getD rHead none
    let s1 := { s with mHead := nHead }
    match ptr with
    | some p => (p, s1)
    | none =>
      let r := s1.mAllocator.alloc
      (r.1, { s1 with mAllocator := r.2 })

/-- MemoryAllocator<T,S>::free, sequential meaning: a null argument
returns at once; when the ring is full ((head + S) == tail or
(tail + S) == head in IndexType arithmetic) fall through to the system
deallocator; otherwise store the block at the physical index of tail and
advance tail to (tail + 1) % (2 * S). -/
def MemoryAllocatorS.free {S : Nat} (p : Option Nat) (s : MemoryAllocatorS S) :
    MemoryAllocatorS S :=
  match p with
  | none => s
  | some ptr =>
    if (s.mHead + S) % idxMod S = s.mTail ∨ (s.mTail + S) % idxMod S = s.mHead then
      { s with mAllocator := s.mAllocator.free (some ptr) }
    else
      let nTail := (s.mTail + 1) % idxMod S % twoS S
      let rTail := if s.mTail < S then s.mTail else s.mTail - S
      { s with mTail := nTail, mQueueBuffer := s.mQueueBuffer.set rTail (some ptr) }

/-- The allocator interface a ChunkList<T,N,S> instantiation draws its
chunks from (MemoryAllocator<Chunk,S> for the template argument S): an
allocation always yields a block (the source does not handle allocation
failure), a free takes back a nullable block. -/
structure Pool (σ : Type) where
  alloc : σ → Nat × σ
  free : Option Nat → σ → σ

/-- The S = 0 instantiation of the pool interface. -/
def pool0 : Pool MemoryAllocator0 :=
  { alloc := MemoryAllocator0.alloc, free := MemoryAllocator0.free }

/-- The S = 1 instantiation of the pool interface (the default of the pipe). -/
def pool1 : Pool MemoryAllocator1 :=
  { alloc := MemoryAllocator1.alloc, free := MemoryAllocator1.free }

/-- The general S instantiation of the pool interface. -/
def poolS (S : Nat) : Pool (MemoryAllocatorS S) :=
  { alloc := MemoryAllocatorS.alloc, free := MemoryAllocatorS.free }

/-- One chunk of ChunkList<T,N,S>: its identity (the block address it was
allocated at) and its data array of N slots. A slot holds none while its T
object is not constructed (uninitialised or already destroyed). The prev
and next links of the C++ struct are represented by the position of the
chunk inside the chain of the list. -/
structure ChunkT (T : Type) where
  id : ChunkId
  data : List (Option T)
deriving DecidableEq, Repr

/-- The chunk preceding (via the prev links) the chunk with the given
identity in a chain, if any; none models a null or never-written prev
pointer. -/
def prevIdOf {T : Type} : List (ChunkT T) → Option ChunkId → Option ChunkId
  | _, none => none
  | [], some _ => none
  | [_], some _ => none
  | a :: b :: rest, some i => if b.id = i then some a.id else prevIdOf (b :: rest) (some i)

/-- ChunkList<T,N,S>. The chain lists the linked chunks in prev-to-next
order: mBeginChunk is its head, the next pointer of each chunk leads to the
following entry, and the next pointer of the last entry is null. mEndChunk
always names the last chunk of the chain (the C++ field is a never-null
pointer); mBackChunk starts as nullptr and is set by push. -/
structure ChunkList (T : Type) (σ : Type) where
  mAllocator : σ
  chain : List (ChunkT T)
  mBeginPos : Nat
  mBackChunk : Option ChunkId
  mBackPos : Nat
  mEndChunk : ChunkId
  mEndPos : Nat
deriving Repr, DecidableEq

/-- ChunkList constructor: allocate the first chunk; begin and end point at
it, back is null. -/
def ChunkList.init {σ : Type} (T : Type) (P : Pool σ) (N : Nat) (a0 : σ) : ChunkList T σ :=
  let pa := P.alloc a0
  { mAllocator := pa.2, chain := [⟨pa.1, List.replicate N none⟩], mBeginPos := 0,
    mBackChunk := none, mBackPos := 0, mEndChunk := pa.1, mEndPos := 0 }

/-- The address of ChunkList::front(), i.e. &mBeginChunk->data[mBeginPos];
none only when the chain is empty (in C++ a dereference of a null
mBeginChunk, which no reachable state performs). -/
def ChunkList.frontAddr {T σ : Type} (s : ChunkList T σ) : Ptr :=
  s.chain.head?.map (fun c => ⟨c.id, s.mBeginPos⟩)

/-- The address of ChunkList::back(), i.e. &mBackChunk->data[mBackPos];
none while mBackChunk is still the null pointer of the constructor. -/
def ChunkList.backAddr {T σ : Type} (s : ChunkList T σ) : Ptr :=
  s.mBackChunk.map (fun c => ⟨c, s.mBackPos⟩)

/-- The contents of the slot at an address: the constructed object, or none
when the slot is uninitialised (or the address dangles). -/
def ChunkList.getSlot {T σ : Type} (s : ChunkList T σ) (a : Addr) : Option T :=
  (s.chain.find? (fun c => c.id = a.chunk)).bind (fun c => c.data.getD a.pos none)

/-- Overwrite the slot at an address (no effect on a dangling address). -/
def ChunkList.setSlot {T σ : Type} (s : ChunkList T σ) (a : Addr) (v : Option T) :
    ChunkList T σ :=
  { s with chain :=
      s.chain.map (fun c => if c.id = a.chunk then { c with data := c.data.set a.pos v } else c) }

/-- The value read by moving out of ChunkList::front(). -/
def ChunkList.frontVal {T σ : Type} (s : ChunkList T σ) : Option T :=
  s.frontAddr.bind s.getSlot

/-- The value read by moving out of ChunkList::back(). -/
def ChunkList.backVal {T σ : Type} (s : ChunkList T σ) : Option T :=
  s.backAddr.bind s.getSlot

/-- Pipe::ctor(T* memory, args...): placement-construct at the slot unless
the pointer is null (the source guards with `if (memory)`). -/
def ChunkList.ctorAt {T σ : Type} (s : ChunkList T σ) (p : Ptr) (v : T) : ChunkList T σ :=
  match p with
  | none => s
  | some a => s.setSlot a (some v)

/-- Pipe::dtor(T* ptr): destroy the object at the slot unless the pointer
is null; the slot becomes uninitialised again. -/
def ChunkList.dtorAt {T σ : Type} (s : ChunkList T σ) (p : Ptr) : ChunkList T σ :=
  match p with
  | none => s
  | some a => s.setSlot a none

/-- ChunkList::push: set back := end, then advance mEndPos; when the
incremented mEndPos reaches N, allocate a chunk from the pool, link it
after mEndChunk (its prev set to mEndChunk, its next null), and reset
mEndPos to 0. -/
def ChunkList.push {T σ : Type} (P : Pool σ) (N : Nat) (s : ChunkList T σ) : ChunkList T σ :=
  let s1 := { s with mBackChunk := some s.mEndChunk, mBackPos := s.mEndPos }
  if s1.mEndPos + 1 ≠ N then
    { s1 with mEndPos := s1.mEndPos + 1 }
  else
    let pa := P.alloc s1.mAllocator
    { s1 with mAllocator := pa.2,
              chain := s1.chain ++ [⟨pa.1, List.replicate N none⟩],
              mEndChunk := pa.1, mEndPos := 0 }

/-- ChunkList::unpush: retreat back by one slot (crossing into the previous
chunk when mBackPos was 0), then retreat end by one slot; when mEndPos was
0, mEndChunk becomes its prev, the now-empty old last chunk is unlinked
(mEndChunk->next = nullptr) and returned to the pool. The prev dereference
with a single-chunk chain is undefined behaviour in C++ (no reachable state
performs it); the embedding then leaves mEndChunk in place. -/
def ChunkList.unpush {T σ : Type} (P : Pool σ) (N : Nat) (s : ChunkList T σ) : ChunkList T σ :=
  let s1 :=
    if s.mBackPos ≠ 0 then { s with mBackPos := s.mBackPos - 1 }
    else { s with mBackPos := N - 1, mBackChunk := prevIdOf s.chain s.mBackChunk }
  if s1.mEndPos ≠ 0 then
    { s1 with mEndPos := s1.mEndPos - 1 }
  else
    { s1 with mEndPos := N - 1,
              mEndChunk := (prevIdOf s1.chain (some s1.mEndChunk)).getD s1.mEndChunk,
              chain := s1.chain.dropLast,
              mAllocator := P.free (some s1.mEndChunk) s1.mAllocator }

/-- ChunkList::pop: advance mBeginPos; when it reaches N, unlink the old
head chunk (the prev of the new head becomes null), reset mBeginPos to 0 and
return the old head to the pool. -/
def ChunkList.pop {T σ : Type} (P : Pool σ) (N : Nat) (s : ChunkList T σ) : ChunkList T σ :=
  if s.mBeginPos + 1 = N then
    match s.chain with
    | [] => { s with mBeginPos := 0 }
    | o :: rest => { s with mBeginPos := 0, chain := rest,
                            mAllocator := P.free (some o.id) s.mAllocator }
  else
    { s with mBeginPos := s.mBeginPos + 1 }

/-- Pipe<T,N,S>: the chunk list plus the four frontier cursors. mCommitEnd
is the single shared atomic pointer; none models the nullptr sleep
sentinel. -/
structure Pipe (T : Type) (σ : Type) where
  mChunkList : ChunkList T σ
  mLastFlushEnd : Ptr
  mReadEnd : Ptr
  mFlushEnd : Ptr
  mCommitEnd : Ptr
deriving Repr, DecidableEq

/-- Pipe constructor: construct the chunk list, push once, and point all
four cursors at &mChunkList.back(). -/
def Pipe.init {σ : Type} (T : Type) (P : Pool σ) (N : Nat) (a0 : σ) : Pipe T σ :=
  let cl := ChunkList.push P N (ChunkList.init T P N a0)
  { mChunkList := cl, mLastFlushEnd := cl.backAddr, mReadEnd := cl.backAddr,
    mFlushEnd := cl.backAddr, mCommitEnd := cl.backAddr }

/-- Pipe::write(incomplete, args...): construct the value at
&mChunkList.back(), push to reserve the next slot, and when the write is
complete record the new &mChunkList.back() as mFlushEnd. -/
def Pipe.write {T σ : Type} (P : Pool σ) (N : Nat) (v : T) (incomplete : Bool)
    (s : Pipe T σ) : Pipe T σ :=
  let cl1 := s.mChunkList.ctorAt s.mChunkList.backAddr v
  let cl2 := ChunkList.push P N cl1
  let s1 := { s with mChunkList := cl2 }
  if incomplete then s1 else { s1 with mFlushEnd := cl2.backAddr }

/-- Pipe::ctor with a constructor of T that may throw: the argument none
stands for a throwing construction. Nothing is constructed when the
pointer is null (so nothing can throw), and a throwing construction leaves
the slot unconstructed. -/
def ChunkList.ctorAtF {T σ : Type} (s : ChunkList T σ) (p : Ptr) (ctor : Option T) :
    Except (ChunkList T σ) (ChunkList T σ) :=
  match p, ctor with
  | none, _ => .ok s
  | some _, none => .error s
  | some a, some v => .ok (s.setSlot a (some v))

/-- Pipe::write with a possibly-throwing constructor of T: the construction
runs first; when it throws, the exception propagates before push is
invoked (Except.error carries the pipe at the throw point). On normal
construction this is exactly Pipe.write. -/
def Pipe.writeF {T σ : Type} (P : Pool σ) (N : Nat) (ctor : Option T) (incomplete : Bool)
    (s : Pipe T σ) : Except (Pipe T σ) (Pipe T σ) :=
  match s.mChunkList.ctorAtF s.mChunkList.backAddr ctor with
  | .error cl => .error { s with mChunkList := cl }
  | .ok cl1 =>
    let cl2 := ChunkList.push P N cl1
    let s1 := { s with mChunkList := cl2 }
    .ok (if incomplete then s1 else { s1 with mFlushEnd := cl2.backAddr })

/-- Pipe::unwrite(value_): when mFlushEnd equals &mChunkList.back() there
is nothing un-flushed, return false and change nothing; otherwise unpush,
move the value out of the reclaimed tail slot, destroy the slot, return
true. -/
def Pipe.unwrite {T σ : Type} (P : Pool σ) (N : Nat) (s : Pipe T σ) :
    Bool × Option T × Pipe T σ :=
  if s.mFlushEnd = s.mChunkList.backAddr then (false, none, s)
  else
    let cl1 := ChunkList.unpush P N s.mChunkList
    let v := cl1.backVal
    let cl2 := cl1.dtorAt cl1.backAddr
    (true, v, { s with mChunkList := cl2 })

/-- Pipe::flush: nothing to publish when mLastFlushEnd == mFlushEnd. Else
CAS mCommitEnd from mLastFlushEnd to mFlushEnd; on success the reader is
awake: set mLastFlushEnd := mFlushEnd, return true. On failure (the reader
stored nullptr into mCommitEnd and went to sleep; the failing CAS loads the
observed value into its expected reference, here mLastFlushEnd, but that
value is immediately overwritten) store mFlushEnd into mCommitEnd, set
mLastFlushEnd := mFlushEnd, return false. -/
def Pipe.flush {T σ : Type} (s : Pipe T σ) : Bool × Pipe T σ :=
  if s.mLastFlushEnd = s.mFlushEnd then (true, s)
  else if s.mCommitEnd = s.mLastFlushEnd then
    (true, { s with mCommitEnd := s.mFlushEnd, mLastFlushEnd := s.mFlushEnd })
  else
    (false, { s with mCommitEnd := s.mFlushEnd, mLastFlushEnd := s.mFlushEnd })

/-- Pipe::check_read: when &mChunkList.front() differs from mReadEnd and
mReadEnd is not null there is prefetched data, return true. Otherwise CAS
mCommitEnd from mReadEnd to nullptr: success means nothing new was
published, the reader has marked itself asleep, return false; failure
loads the observed mCommitEnd into mReadEnd (the new frontier) and returns
true. -/
def Pipe.check_read {T σ : Type} (s : Pipe T σ) : Bool × Pipe T σ :=
  if s.mChunkList.frontAddr ≠ s.mReadEnd ∧ s.mReadEnd ≠ none then (true, s)
  else if s.mCommitEnd = s.mReadEnd then
    (false, { s with mCommitEnd := none })
  else
    (true, { s with mReadEnd := s.mCommitEnd })

/-- Pipe::read(value_): check_read, and on success move the value out of
front(), destroy the slot, pop, return true. -/
def Pipe.read {T σ : Type} (P : Pool σ) (N : Nat) (s : Pipe T σ) :
    Bool × Option T × Pipe T σ :=
  let c := s.check_read
  if c.1 then
    let v := c.2.mChunkList.frontVal
    let cl := ChunkList.pop P N (c.2.mChunkList.dtorAt c.2.mChunkList.frontAddr)
    (true, v, { c.2 with mChunkList := cl })
  else
    (false, none, c.2)

/-- Iterated Pipe::unwrite: the list of (result, extracted value) pairs of n
successive unwrite calls, together with the final pipe. -/
def Pipe.unwriteN {T σ : Type} (P : Pool σ) (N : Nat) : Nat → Pipe T σ → List (Bool × Option T) × Pipe T σ
  | 0, s => ([], s)
  | k+1, s =>
    let r := Pipe.unwrite P N s
    let rest := Pipe.unwriteN P N k r.2.2
    ((r.1, r.2.1) :: rest.1, rest.2)

/-- Iterated Pipe::read: the list of (result, value) pairs of n successive
read calls, together with the final pipe. -/
def Pipe.readN {T σ : Type} (P : Pool σ) (N : Nat) : Nat → Pipe T σ → List (Bool × Option T) × Pipe T σ
  | 0, s => ([], s)
  | k+1, s =>
    let r := Pipe.read P N s
    let rest := Pipe.readN P N k r.2.2
    ((r.1, r.2.1) :: rest.1, rest.2)

/-- The result a Pipe::read call would produce at each state along n
unwrite calls: the probe evaluates read at the state reached before each
unwrite without threading the read through (the consumer performs no
actions in the scenario). -/
def Pipe.unwriteProbe {T σ : Type} (P : Pool σ) (N : Nat) : Nat → Pipe T σ → List Bool
  | 0, _ => []
  | k+1, s => (Pipe.read P N s).1 :: Pipe.unwriteProbe P N k (Pipe.unwrite P N s).2.2

/-- One operation of a producer/consumer run on the pipe: the two producer
calls, and the consumer read. Any interleaved execution of the two roles is
a sequence of these operations, because the single shared atomic makes each
operation atomic with respect to the other role. -/
inductive PipeOp (T : Type) where
  | write (v : T) (incomplete : Bool)
  | unwrite
  | flush
  | read
deriving Repr, DecidableEq

/-- Execute one operation: its boolean result (none for write, which
returns void) and the successor state. -/
def Pipe.step {T σ : Type} (P : Pool σ) (N : Nat) (s : Pipe T σ) :
    PipeOp T → Option Bool × Pipe T σ
  | .write v inc => (none, Pipe.write P N v inc s)
  | .unwrite =>
    let r := Pipe.unwrite P N s
    (some r.1, r.2.2)
  | .flush =>
    let r := Pipe.flush s
    (some r.1, r.2)
  | .read =>
    let r := Pipe.read P N s
    (some r.1, r.2.2)

/-- Execute a list of operations from a state. -/
def Pipe.runFrom {T σ : Type} (P : Pool σ) (N : Nat) : Pipe T σ → List (PipeOp T) → Pipe T σ
  | s, [] => s
  | s, op :: rest => Pipe.runFrom P N (Pipe.step P N s op).2 rest

/-- Checks that no flush in the list of operations is executed in a state
with something new to publish (mFlushEnd different from mLastFlushEnd):
such no-op flush calls return true without touching mCommitEnd. -/
def Pipe.noAdvFlush {T σ : Type} (P : Pool σ) (N : Nat) : Pipe T σ → List (PipeOp T) → Bool
  | _, [] => true
  | s, op :: rest =>
    (match op with
     | PipeOp.flush => decide (s.mFlushEnd = s.mLastFlushEnd)
     | _ => true)
    && Pipe.noAdvFlush P N (Pipe.step P N s op).2 rest

/-- The producer-side frontier cursors hold real slot addresses (never the
null sentinel); this holds in the initial state and is preserved by every
operation. -/
def Pipe.cursorsSome {T σ : Type} (s : Pipe T σ) : Prop :=
  s.mLastFlushEnd ≠ none ∧ s.mFlushEnd ≠ none

/-- The producer loop of the demonstration program: write the values
a, a+1, ..., a+b-1 with incomplete = true. -/
def writeSeq (a b : Nat) (s : Pipe Int MemoryAllocator1) : Pipe Int MemoryAllocator1 :=
  (List.range' a b).foldl (fun t i => Pipe.write pool1 128 (Int.ofNat i) true t) s

/-- The pipe of the demonstration program (T = int, N = 128, S = 1) after k
writes of 0, 1, ..., k-1 (k a multiple of 128): slot g of the chunk list
holds g for g < k, the frontier cursors still point at the first slot, and
no chunk has ever been freed. -/
def aState (k : Nat) : Pipe Int MemoryAllocator1 :=
  { mChunkList :=
    { mAllocator := { mPtr := none, mAllocator := { next := k / 128 + 2, freed := [] } },
      chain := (List.range (k / 128 + 1)).map (fun j =>
        ⟨j + 1, (List.range 128).map (fun p =>
          if 128 * j + p < k then some (Int.ofNat (128 * j + p)) else none)⟩),
      mBeginPos := 0, mBackChunk := some (k / 128 + 1), mBackPos := 0,
      mEndChunk := k / 128 + 1, mEndPos := 1 },
    mLastFlushEnd := some ⟨1, 0⟩, mReadEnd := some ⟨1, 0⟩,
    mFlushEnd := some ⟨1, 0⟩, mCommitEnd := some ⟨1, 0⟩ }

/-- The demonstration pipe after 1024 writes and then m unwrite calls (m a
multiple of 128): the tail chunks beyond the retreating back cursor have
been returned to the pool; the single-slot pool holds the most recently
freed chunk and earlier ones went to the system deallocator. -/
def bState (m : Nat) : Pipe Int MemoryAllocator1 :=
  { mChunkList :=
    { mAllocator :=
      { mPtr := if m = 0 then none else some (10 - m / 128),
        mAllocator :=
        { next := 10, freed := (List.range (m / 128 - 1)).map (fun t => 9 - t) } },
      chain := (List.range (9 - m / 128)).map (fun j =>
        ⟨j + 1, (List.range 128).map (fun p =>
          if 128 * j + p < 1024 - m then some (Int.ofNat (128 * j + p)) else none)⟩),
      mBeginPos := 0, mBackChunk := some (9 - m / 128), mBackPos := 0,
      mEndChunk := 9 - m / 128, mEndPos := 1 },
    mLastFlushEnd := some ⟨1, 0⟩, mReadEnd := some ⟨1, 0⟩,
    mFlushEnd := some ⟨1, 0⟩, mCommitEnd := some ⟨1, 0⟩ }

/-- The demonstration pipe after the writes, 512 unwrite calls,
write(-1, false) and flush(), followed by r successful reads (r a multiple
of 128): the head chunks before the begin cursor have been recycled, the
published frontier is the slot after the -1 element, and the read cursor
has prefetched that frontier once the first read happened. -/
def cState (r : Nat) : Pipe Int MemoryAllocator1 :=
  { mChunkList :=
    { mAllocator :=
      { mPtr := if r = 0 then some 6 else some (r / 128),
        mAllocator :=
        { next := 10,
          freed := [9, 8, 7] ++ (if r = 0 then [] else 6 :: (List.range (r / 128 - 1)).map (fun t => t + 1)) } },
      chain := (List.range (5 - r / 128)).map (fun j =>
        ⟨j + 1 + r / 128, (List.range 128).map (fun p =>
          if 128 * (j + r / 128) + p < 512 then some (Int.ofNat (128 * (j + r / 128) + p))
          else if 128 * (j + r / 128) + p = 512 then some (-1) else none)⟩),
      mBeginPos := 0, mBackChunk := some 5, mBackPos := 1,
      mEndChunk := 5, mEndPos := 2 },
    mLastFlushEnd := some ⟨5, 1⟩, mReadEnd := some (if r = 0 then ⟨1, 0⟩ else ⟨5, 1⟩),
    mFlushEnd := some ⟨5, 1⟩, mCommitEnd := some ⟨5, 1⟩ }

/-- The demonstration program state after its first loop: 1024 writes of
0..1023, all with incomplete = true, into a fresh default pipe. -/
def c4afterWrites : Pipe Int MemoryAllocator1 :=
  (List.range 1024).foldl (fun s i => Pipe.write pool1 128 (Int.ofNat i) true s)
    (Pipe.init Int pool1 128 {})

/-- A small concrete chunk list (N = 2) used to instantiate theorems: one
chunk, both slots constructed, back at the second slot. -/
def tinyCL : ChunkList Int MemoryAllocator1 :=
  { mAllocator := {}, chain := [⟨1, [some 7, some 8]⟩], mBeginPos := 0,
    mBackChunk := some 1, mBackPos := 1, mEndChunk := 1, mEndPos := 1 }

/-- A concrete pipe over tinyCL with one element published pending:
mFlushEnd is ahead of mLastFlushEnd, the consumer is awake
(mCommitEnd = mLastFlushEnd). -/
def pipeB : Pipe Int MemoryAllocator1 :=
  { mChunkList := tinyCL, mLastFlushEnd := some ⟨1, 0⟩, mReadEnd := some ⟨1, 0⟩,
    mFlushEnd := some ⟨1, 1⟩, mCommitEnd := some ⟨1, 0⟩ }

/-- The same pipe with the consumer asleep (mCommitEnd = nullptr). -/
def pipeC : Pipe Int MemoryAllocator1 := { pipeB with mCommitEnd := none }

/-- The same pipe with prefetched data on the consumer side:
&front() differs from mReadEnd. -/
def pipeR : Pipe Int MemoryAllocator1 := { pipeB with mReadEnd := some ⟨1, 1⟩ }

/-- A pipe over tinyCL in which the tail element is un-flushed
(mFlushEnd differs from the back address), so unwrite can reclaim it. -/
def pipeU : Pipe Int MemoryAllocator1 := { pipeB with mFlushEnd := some ⟨1, 0⟩ }

/-- A chunk list (N = 2) about to cross a chunk boundary on push
(mEndPos + 1 = N) whose pool caches block 5. -/
def tinyCL2 : ChunkList Int MemoryAllocator1 :=
  { mAllocator := { mPtr := some 5, mAllocator := { next := 3, freed := [] } },
    chain := [⟨1, [some 7, some 8]⟩], mBeginPos := 0,
    mBackChunk := some 1, mBackPos := 1, mEndChunk := 1, mEndPos := 1 }

/-- A chunk list (N = 2) whose back and end cursors sit at slot 0 of the
second chunk, so unpush crosses back into the first chunk and returns the
trailing chunk to the pool. -/
def tinyCL0 : ChunkList Int MemoryAllocator1 :=
  { mAllocator := { mPtr := none, mAllocator := { next := 3, freed := [] } },
    chain := [⟨1, [some 7, some 8]⟩, ⟨2, [none, none]⟩], mBeginPos := 0,
    mBackChunk := some 2, mBackPos := 0, mEndChunk := 2, mEndPos := 0 }

/-- An S = 1 memory allocator with a cached block: the state the
MemoryAllocator<T,1> destructor drains via free(nullptr). -/
def c7cached : MemoryAllocator1 := { mPtr := some 5, mAllocator := { next := 6, freed := [] } }

/-- A pool with the template argument S = 2^31 + 1 = 2147483649 (so 2 * S
does not fit in 32 bits and IndexType is widened to 64 bits): one cached
block, head = 0, tail = 1. The buffer is shown with two physical slots;
the counter arithmetic under scrutiny does not read beyond them. -/
def c8pool : MemoryAllocatorS 2147483649 :=
  { mQueueBuffer := [none, none], mHead := 0, mTail := 1, mAllocator := {} }

/-- The allocator interface ObjectAllocator<T,S> sees in its member
MemoryAllocator<T,S>: alloc yields null exactly when the system allocator
does, free accepts a nullable block. -/
structure MAlloc (σ : Type) where
  alloc : σ → Option Nat × σ
  free : Option Nat → σ → σ

/-- ObjectAllocator<T,S>::alloc with a possibly-throwing constructor of T
(argument none stands for a throwing construction): allocate raw memory;
on null, return null without constructing; otherwise construct, and when
the constructor throws, free the block back to the memory allocator and
rethrow (Except.error carries the allocator state after that free). The
result pairs the object address with its value. -/
def ObjectAllocator.alloc {σ T : Type} (M : MAlloc σ) (ctor : Option T) (s : σ) :
    Except σ (Option (Nat × T) × σ) :=
  let r := M.alloc s
  match r.1 with
  | none => .ok (none, r.2)
  | some m =>
    match ctor with
    | some v => .ok (some (m, v), r.2)
    | none => .error (M.free (some m) r.2)

/-- MemoryAllocator<T,1> wrapped in the ObjectAllocator interface (alloc
never returns null in this model of the system allocator). -/
def mAllocOne : MAlloc MemoryAllocator1 :=
  { alloc := fun s =>
      let r := MemoryAllocator1.alloc s
      (some r.1, r.2),
    free := MemoryAllocator1.free }

/-- An allocator whose underlying allocation fails (the system allocator
returns null). -/
def mAllocNull : MAlloc Unit :=
  { alloc := fun s => (none, s), free := fun _ s => s }

theorem ChunkList.push_backAddr {T σ : Type} (P : Pool σ) (N : Nat) (s : ChunkList T σ) :
    (ChunkList.push P N s).backAddr = some ⟨s.mEndChunk, s.mEndPos⟩ := by
  simp only [ChunkList.push]
  split <;> rfl

/-- C1: for every pipe state, flush() returns true and changes nothing when
lastFlushEnd equals flushEnd; otherwise, when the CAS of commitEnd from
lastFlushEnd to flushEnd succeeds (commitEnd equalled lastFlushEnd) it sets
commitEnd and lastFlushEnd to flushEnd and returns true; and when the CAS
fails (the consumer stored the null sleep sentinel) it stores flushEnd into
commitEnd, sets lastFlushEnd to flushEnd, and returns false. Nothing else
of the state changes in any case. -/
theorem c1_flush_protocol {T σ : Type} (s : Pipe T σ) :
    (s.mLastFlushEnd = s.mFlushEnd → Pipe.flush s = (true, s)) ∧
    (s.mLastFlushEnd ≠ s.mFlushEnd → s.mCommitEnd = s.mLastFlushEnd →
      Pipe.flush s = (true, { s with mCommitEnd := s.mFlushEnd, mLastFlushEnd := s.mFlushEnd })) ∧
    (s.mLastFlushEnd ≠ s.mFlushEnd → s.mCommitEnd ≠ s.mLastFlushEnd →
      Pipe.flush s = (false, { s with mCommitEnd := s.mFlushEnd, mLastFlushEnd := s.mFlushEnd })) := by
  refine ⟨fun h => ?_, fun h1 h2 => ?_, fun h1 h2 => ?_⟩
  · simp only [Pipe.flush]
    rw [if_pos h]
  · simp only [Pipe.flush]
    rw [if_neg h1, if_pos h2]
  · simp only [Pipe.flush]
    rw [if_neg h1, if_neg h2]

/-- C2: for every pipe state, check_read() returns true and changes nothing
when front() differs from readEnd and readEnd is non-null; otherwise it
CASes commitEnd from readEnd to null: on success (consumer marks itself
asleep) it returns false, and on failure readEnd is updated to the observed
commitEnd (the new frontier) and it returns true. -/
theorem c2_check_read_protocol {T σ : Type} (s : Pipe T σ) :
    (s.mChunkList.frontAddr ≠ s.mReadEnd ∧ s.mReadEnd ≠ none →
      Pipe.check_read s = (true, s)) ∧
    (¬(s.mChunkList.frontAddr ≠ s.mReadEnd ∧ s.mReadEnd ≠ none) →
      s.mCommitEnd = s.mReadEnd →
      Pipe.check_read s = (false, { s with mCommitEnd := none })) ∧
    (¬(s.mChunkList.frontAddr ≠ s.mReadEnd ∧ s.mReadEnd ≠ none) →
      s.mCommitEnd ≠ s.mReadEnd →
      Pipe.check_read s = (true, { s with mReadEnd := s.mCommitEnd })) := by
  refine ⟨fun h => ?_, fun h1 h2 => ?_, fun h1 h2 => ?_⟩
  · simp only [Pipe.check_read]
    rw [if_pos h]
  · simp only [Pipe.check_read]
    rw [if_neg h1, if_pos h2]
  · simp only [Pipe.check_read]
    rw [if_neg h1, if_neg h2]

/-- C5: for every pipe state, unwrite(out) returns false and leaves the
pipe unchanged exactly when flushEnd equals the current back address;
otherwise it performs unpush, moves the value out of the reclaimed tail
slot (the new back()), destroys that slot, and returns true. -/
theorem c5_unwrite_protocol {T σ : Type} (P : Pool σ) (N : Nat) (s : Pipe T σ) :
    (s.mFlushEnd = s.mChunkList.backAddr → Pipe.unwrite P N s = (false, none, s)) ∧
    (s.mFlushEnd ≠ s.mChunkList.backAddr →
      Pipe.unwrite P N s =
        (true, (ChunkList.unpush P N s.mChunkList).backVal,
         { s with
           mChunkList := (ChunkList.unpush P N s.mChunkList).dtorAt
             (ChunkList.unpush P N s.mChunkList).backAddr })) := by
  constructor <;> intro h <;> simp [Pipe.unwrite, h]

/-- C6: for every chunk list state, push() sets (backChunk, backPos) to
(endChunk, endPos) and advances endPos by one, and exactly when the
advanced endPos reaches N a chunk is taken from the pool, linked after
endChunk, and endPos is reset to 0; dually unpush() retreats the back
cursor by one slot (into the previous chunk when backPos was 0) and the
end cursor by one slot, and exactly when endPos was 0 the trailing chunk
is unlinked and returned to the pool. -/
theorem c6_chunk_boundary {T σ : Type} (P : Pool σ) (N : Nat) (s : ChunkList T σ) :
    ((ChunkList.push P N s).mBackChunk = some s.mEndChunk ∧
     (ChunkList.push P N s).mBackPos = s.mEndPos) ∧
    (s.mEndPos + 1 ≠ N →
      ChunkList.push P N s =
        { s with mBackChunk := some s.mEndChunk, mBackPos := s.mEndPos,
                 mEndPos := s.mEndPos + 1 }) ∧
    (s.mEndPos + 1 = N →
      ChunkList.push P N s =
        { s with mBackChunk := some s.mEndChunk, mBackPos := s.mEndPos,
                 mAllocator := (P.alloc s.mAllocator).2,
                 chain := s.chain ++ [⟨(P.alloc s.mAllocator).1, List.replicate N none⟩],
                 mEndChunk := (P.alloc s.mAllocator).1, mEndPos := 0 }) ∧
    (s.mBackPos ≠ 0 →
      (ChunkList.unpush P N s).mBackPos = s.mBackPos - 1 ∧
      (ChunkList.unpush P N s).mBackChunk = s.mBackChunk) ∧
    (s.mBackPos = 0 →
      (ChunkList.unpush P N s).mBackPos = N - 1 ∧
      (ChunkList.unpush P N s).mBackChunk = prevIdOf s.chain s.mBackChunk) ∧
    (s.mEndPos ≠ 0 →
      (ChunkList.unpush P N s).mEndPos = s.mEndPos - 1 ∧
      (ChunkList.unpush P N s).chain = s.chain ∧
      (ChunkList.unpush P N s).mEndChunk = s.mEndChunk ∧
      (ChunkList.unpush P N s).mAllocator = s.mAllocator) ∧
    (s.mEndPos = 0 →
      (ChunkList.unpush P N s).mEndPos = N - 1 ∧
      (ChunkList.unpush P N s).chain = s.chain.dropLast ∧
      (ChunkList.unpush P N s).mEndChunk = (prevIdOf s.chain (some s.mEndChunk)).getD s.mEndChunk ∧
      (ChunkList.unpush P N s).mAllocator = P.free (some s.mEndChunk) s.mAllocator) := by
  refine ⟨?_, fun h => ?_, fun h => ?_, fun h => ?_, fun h => ?_, fun h => ?_, fun h => ?_⟩
  · constructor <;> (simp only [ChunkList.push]; split <;> rfl)
  · simp [ChunkList.push, h]
  · simp [ChunkList.push, h]
  · by_cases he : s.mEndPos = 0 <;> simp [ChunkList.unpush, h, he]
  · by_cases he : s.mEndPos = 0 <;> simp [ChunkList.unpush, h, he]
  · by_cases hb : s.mBackPos = 0 <;> simp [ChunkList.unpush, h, hb]
  · by_cases hb : s.mBackPos = 0 <;> simp [ChunkList.unpush, h, hb]

/-- C7 (amended): free(nullptr) is a no-op for the general template
MemoryAllocator<T,S> and for the S = 0 specialisation; the S = 1
specialisation instead exchanges its cached slot with the null argument,
releasing the previously cached block to the underlying allocator if one
was present (its destructor relies on this to drain the cache). -/
theorem c7_free_null_amended (S : Nat) :
    (∀ s : MemoryAllocatorS S, MemoryAllocatorS.free none s = s) ∧
    (∀ s : MemoryAllocator0, MemoryAllocator0.free none s = s) ∧
    (∀ s : MemoryAllocator1, MemoryAllocator1.free none s =
      { mPtr := none,
        mAllocator := match s.mPtr with
          | some t => s.mAllocator.free (some t)
          | none => s.mAllocator }) := by
  refine ⟨fun s => rfl, fun s => rfl, fun s => ?_⟩
  cases h : s.mPtr <;> simp [MemoryAllocator1.free, h]

/-- Counterexample to C7 as stated: on the S = 1 specialisation holding a
cached block, free(nullptr) is not a no-op: the cached slot is cleared and
the block is released to the underlying allocator. -/
theorem c7_free_null_counterexample :
    MemoryAllocator1.free none c7cached ≠ c7cached ∧
    (MemoryAllocator1.free none c7cached).mPtr = none ∧
    (MemoryAllocator1.free none c7cached).mAllocator.freed = [5] := by decide

/-- C8: the counter type does widen to 64 bits for S = 2^31 + 1, but the
C++ expression 2 * S is evaluated in 32-bit unsigned arithmetic and yields
2, so advancing tail from 1 wraps to 0 instead of to 2 = (1 + 1) mod 2S:
the wrap modulus is not the exact value 2 * S, contradicting the stated
intent of the widening (the comment at the IndexType definition). -/
theorem c8_widened_modulus_bug :
    idxMod 2147483649 = 2 ^ 64 ∧
    twoS 2147483649 = 2 ∧
    (MemoryAllocatorS.free (some 9) c8pool).mTail = 0 ∧
    (c8pool.mTail + 1) % (2 * 2147483649) = 2 := by decide

/-- C9: when the constructor of T throws inside write (ctor argument none),
the exception propagates with the pipe exactly as before the call - push
was not invoked, so backChunk/backPos, endChunk/endPos, flushEnd,
lastFlushEnd and commitEnd are all unchanged; a successful write is
exactly the non-throwing execution, and it constructs into the very slot
(the current back address) the failed call targeted, so the failed element
is never visible to the consumer. -/
theorem c9_write_ctor_throw {T σ : Type} (P : Pool σ) (N : Nat) (incomplete : Bool)
    (s : Pipe T σ) (h : s.mChunkList.backAddr ≠ none) :
    Pipe.writeF P N none incomplete s = Except.error s ∧
    (∀ v : T, Pipe.writeF P N (some v) incomplete s =
      Except.ok (Pipe.write P N v incomplete s)) ∧
    (∀ v : T, (Pipe.write P N v incomplete s).mChunkList
      = ChunkList.push P N (ChunkList.ctorAt s.mChunkList s.mChunkList.backAddr v)) := by
  refine ⟨?_, fun v => ?_, fun v => ?_⟩
  · cases hb : s.mChunkList.backAddr with
    | none => exact absurd hb h
    | some a => simp [Pipe.writeF, ChunkList.ctorAtF, hb]
  · cases hb : s.mChunkList.backAddr <;>
      simp [Pipe.writeF, Pipe.write, ChunkList.ctorAtF, ChunkList.ctorAt, hb]
  · cases incomplete <;> simp [Pipe.write]

/-- C10: ObjectAllocator<T,S>::alloc returns null exactly when the
underlying memory allocation returned null (and then no construction is
attempted); when the constructor of T throws after a successful raw
allocation, the raw block is returned to the memory allocator before the
exception is rethrown, so it is never leaked. -/
theorem c10_object_alloc_safety {σ T : Type} (M : MAlloc σ) (ctor : Option T) (s : σ) :
    ((M.alloc s).1 = none →
      ObjectAllocator.alloc M ctor s = Except.ok (none, (M.alloc s).2)) ∧
    (∀ m : Nat, (M.alloc s).1 = some m → ctor = none →
      ObjectAllocator.alloc M ctor s = Except.error (M.free (some m) (M.alloc s).2)) ∧
    (∀ (m : Nat) (v : T), (M.alloc s).1 = some m → ctor = some v →
      ObjectAllocator.alloc M ctor s = Except.ok (some (m, v), (M.alloc s).2)) ∧
    (∀ (p : Option (Nat × T)) (s2 : σ),
      ObjectAllocator.alloc M ctor s = Except.ok (p, s2) →
      (p = none ↔ (M.alloc s).1 = none)) := by
  refine ⟨fun h => ?_, fun m h hc => ?_, fun m v h hc => ?_, fun p s2 h => ?_⟩
  · simp [ObjectAllocator.alloc, h]
  · simp [ObjectAllocator.alloc, h, hc]
  · simp [ObjectAllocator.alloc, h, hc]
  · cases hm : (M.alloc s).1 with
    | none =>
      simp [ObjectAllocator.alloc, hm] at h
      simp [h.1.symm]
    | some m =>
      cases hc : ctor with
      | none => simp [ObjectAllocator.alloc, hm, hc] at h
      | some v =>
        simp [ObjectAllocator.alloc, hm, hc] at h
        simp [h.1.symm]

/-- Witness for C1: the three cases of the flush protocol evaluated at
concrete pipes (fresh pipe; pending element with awake consumer; pending
element with sleeping consumer). -/
theorem c1_flush_protocol_witness :
    Pipe.flush (Pipe.init Int pool1 128 {}) = (true, Pipe.init Int pool1 128 {}) ∧
    Pipe.flush pipeB =
      (true, { pipeB with mCommitEnd := pipeB.mFlushEnd, mLastFlushEnd := pipeB.mFlushEnd }) ∧
    Pipe.flush pipeC =
      (false, { pipeC with mCommitEnd := pipeC.mFlushEnd, mLastFlushEnd := pipeC.mFlushEnd }) :=
  ⟨(c1_flush_protocol (Pipe.init Int pool1 128 {})).1 rfl,
   (c1_flush_protocol pipeB).2.1 (by decide) (by decide),
   (c1_flush_protocol pipeC).2.2 (by decide) (by decide)⟩

/-- Witness for C2: the three cases of check_read evaluated at concrete
pipes (prefetched data; caught up with awake producer frontier; caught up
with a newer frontier). -/
theorem c2_check_read_protocol_witness :
    Pipe.check_read pipeR = (true, pipeR) ∧
    Pipe.check_read pipeB = (false, { pipeB with mCommitEnd := none }) ∧
    Pipe.check_read pipeC = (true, { pipeC with mReadEnd := pipeC.mCommitEnd }) :=
  ⟨(c2_check_read_protocol pipeR).1 (by decide),
   (c2_check_read_protocol pipeB).2.1 (by decide) (by decide),
   (c2_check_read_protocol pipeC).2.2 (by decide) (by decide)⟩

/-- Witness for C5: both unwrite cases at concrete pipes (a fresh pipe with
nothing un-flushed; a pipe with one retractable element). -/
theorem c5_unwrite_protocol_witness :
    Pipe.unwrite pool1 128 (Pipe.init Int pool1 128 {}) =
      (false, none, Pipe.init Int pool1 128 {}) ∧
    Pipe.unwrite pool1 2 pipeU =
      (true, (ChunkList.unpush pool1 2 pipeU.mChunkList).backVal,
       { pipeU with
         mChunkList := (ChunkList.unpush pool1 2 pipeU.mChunkList).dtorAt
           (ChunkList.unpush pool1 2 pipeU.mChunkList).backAddr }) :=
  ⟨(c5_unwrite_protocol pool1 128 (Pipe.init Int pool1 128 {})).1 (by decide),
   (c5_unwrite_protocol pool1 2 pipeU).2 (by decide)⟩

/-- Witness for C6: every case of push and unpush exercised at the concrete
chunk lists tinyCL2 (boundary and non-boundary push; in-chunk unpush) and
tinyCL0 (chunk-crossing unpush that returns the trailing chunk). -/
theorem c6_chunk_boundary_witness :
    ((ChunkList.push pool1 2 tinyCL2).mBackChunk = some tinyCL2.mEndChunk ∧
     (ChunkList.push pool1 2 tinyCL2).mBackPos = tinyCL2.mEndPos) ∧
    ChunkList.push pool1 3 tinyCL2 =
      { tinyCL2 with mBackChunk := some tinyCL2.mEndChunk, mBackPos := tinyCL2.mEndPos,
                     mEndPos := tinyCL2.mEndPos + 1 } ∧
    ChunkList.push pool1 2 tinyCL2 =
      { tinyCL2 with mBackChunk := some tinyCL2.mEndChunk, mBackPos := tinyCL2.mEndPos,
                     mAllocator := (pool1.alloc tinyCL2.mAllocator).2,
                     chain := tinyCL2.chain ++ [⟨(pool1.alloc tinyCL2.mAllocator).1, List.replicate 2 none⟩],
                     mEndChunk := (pool1.alloc tinyCL2.mAllocator).1, mEndPos := 0 } ∧
    ((ChunkList.unpush pool1 2 tinyCL2).mBackPos = tinyCL2.mBackPos - 1 ∧
     (ChunkList.unpush pool1 2 tinyCL2).mBackChunk = tinyCL2.mBackChunk) ∧
    ((ChunkList.unpush pool1 2 tinyCL0).mBackPos = 2 - 1 ∧
     (ChunkList.unpush pool1 2 tinyCL0).mBackChunk = prevIdOf tinyCL0.chain tinyCL0.mBackChunk) ∧
    ((ChunkList.unpush pool1 2 tinyCL2).mEndPos = tinyCL2.mEndPos - 1 ∧
     (ChunkList.unpush pool1 2 tinyCL2).chain = tinyCL2.chain ∧
     (ChunkList.unpush pool1 2 tinyCL2).mEndChunk = tinyCL2.mEndChunk ∧
     (ChunkList.unpush pool1 2 tinyCL2).mAllocator = tinyCL2.mAllocator) ∧
    ((ChunkList.unpush pool1 2 tinyCL0).mEndPos = 2 - 1 ∧
     (ChunkList.unpush pool1 2 tinyCL0).chain = tinyCL0.chain.dropLast ∧
     (ChunkList.unpush pool1 2 tinyCL0).mEndChunk
       = (prevIdOf tinyCL0.chain (some tinyCL0.mEndChunk)).getD tinyCL0.mEndChunk ∧
     (ChunkList.unpush pool1 2 tinyCL0).mAllocator
       = pool1.free (some tinyCL0.mEndChunk) tinyCL0.mAllocator) :=
  ⟨(c6_chunk_boundary pool1 2 tinyCL2).1,
   (c6_chunk_boundary pool1 3 tinyCL2).2.1 (by decide),
   (c6_chunk_boundary pool1 2 tinyCL2).2.2.1 (by decide),
   (c6_chunk_boundary pool1 2 tinyCL2).2.2.2.1 (by decide),
   (c6_chunk_boundary pool1 2 tinyCL0).2.2.2.2.1 (by decide),
   (c6_chunk_boundary pool1 2 tinyCL2).2.2.2.2.2.1 (by decide),
   (c6_chunk_boundary pool1 2 tinyCL0).2.2.2.2.2.2 (by decide)⟩

/-- Witness for C9: a throwing and a subsequent successful write evaluated
on the fresh default pipe. -/
theorem c9_write_ctor_throw_witness :
    Pipe.writeF pool1 128 none true (Pipe.init Int pool1 128 {}) =
      Except.error (Pipe.init Int pool1 128 {}) ∧
    Pipe.writeF pool1 128 (some 42) true (Pipe.init Int pool1 128 {}) =
      Except.ok (Pipe.write pool1 128 42 true (Pipe.init Int pool1 128 {})) ∧
    (Pipe.write pool1 128 42 true (Pipe.init Int pool1 128 {})).mChunkList
      = ChunkList.push pool1 128
          (ChunkList.ctorAt (Pipe.init Int pool1 128 {}).mChunkList
            (Pipe.init Int pool1 128 {}).mChunkList.backAddr 42) :=
  ⟨(c9_write_ctor_throw pool1 128 true (Pipe.init Int pool1 128 {}) (by decide)).1,
   (c9_write_ctor_throw pool1 128 true (Pipe.init Int pool1 128 {}) (by decide)).2.1 42,
   (c9_write_ctor_throw pool1 128 true (Pipe.init Int pool1 128 {}) (by decide)).2.2 42⟩

/-- Witness for C10: the three paths of ObjectAllocator::alloc evaluated at
a failing underlying allocator and at the S = 1 allocator with a cached
block, plus the exactness direction at a normal return. -/
theorem c10_object_alloc_safety_witness :
    ObjectAllocator.alloc mAllocNull (some (42 : Int)) () = Except.ok (none, ()) ∧
    ObjectAllocator.alloc mAllocOne (none : Option Int) c7cached = Except.error c7cached ∧
    ObjectAllocator.alloc mAllocOne (some (42 : Int)) c7cached =
      Except.ok (some (5, 42), { c7cached with mPtr := none }) ∧
    ((none : Option (Nat × Int)) = none ↔ (mAllocNull.alloc ()).1 = none) :=
  ⟨(c10_object_alloc_safety mAllocNull (some 42) ()).1 rfl,
   (c10_object_alloc_safety mAllocOne (none : Option Int) c7cached).2.1 5 (by decide) rfl,
   (c10_object_alloc_safety mAllocOne (some (42 : Int)) c7cached).2.2.1 5 42 (by decide) rfl,
   (c10_object_alloc_safety mAllocNull (some (42 : Int)) ()).2.2.2 none () rfl⟩

theorem Pipe.check_read_frame {T σ : Type} (s : Pipe T σ) :
    (Pipe.check_read s).2.mLastFlushEnd = s.mLastFlushEnd ∧
    (Pipe.check_read s).2.mFlushEnd = s.mFlushEnd := by
  by_cases c1 : s.mChunkList.frontAddr ≠ s.mReadEnd ∧ s.mReadEnd ≠ none
  · simp [Pipe.check_read, c1]
  · by_cases c2 : s.mCommitEnd = s.mReadEnd <;> simp [Pipe.check_read, c1, c2]

theorem Pipe.check_read_commitNone {T σ : Type} (s : Pipe T σ) (h : s.mCommitEnd = none) :
    (Pipe.check_read s).2.mCommitEnd = none := by
  by_cases c1 : s.mChunkList.frontAddr ≠ s.mReadEnd ∧ s.mReadEnd ≠ none
  · simpa [Pipe.check_read, c1] using h
  · by_cases c2 : s.mCommitEnd = s.mReadEnd <;> simp [Pipe.check_read, c1, c2] <;> exact h

theorem Pipe.check_read_false_asleep {T σ : Type} (s : Pipe T σ)
    (h : (Pipe.check_read s).1 = false) : (Pipe.check_read s).2.mCommitEnd = none := by
  by_cases c1 : s.mChunkList.frontAddr ≠ s.mReadEnd ∧ s.mReadEnd ≠ none
  · simp [Pipe.check_read, c1] at h
  · by_cases c2 : s.mCommitEnd = s.mReadEnd
    · simp [Pipe.check_read, c1, c2]
    · simp [Pipe.check_read, c1, c2] at h

theorem Pipe.read_false_asleep {T σ : Type} (P : Pool σ) (N : Nat) (s : Pipe T σ)
    (h : (Pipe.read P N s).1 = false) : (Pipe.read P N s).2.2.mCommitEnd = none := by
  by_cases hc : (Pipe.check_read s).1
  · simp [Pipe.read, hc] at h
  · simp only [Pipe.read, hc]
    exact Pipe.check_read_false_asleep s (by simpa using hc)

theorem Pipe.step_cursorsSome {T σ : Type} (P : Pool σ) (N : Nat) (s : Pipe T σ)
    (op : PipeOp T) (h : Pipe.cursorsSome s) : Pipe.cursorsSome (Pipe.step P N s op).2 := by
  obtain ⟨h1, h2⟩ := h
  cases op with
  | write v inc =>
    cases inc with
    | true => exact ⟨h1, h2⟩
    | false =>
      refine ⟨h1, ?_⟩
      show (Pipe.write P N v false s).mFlushEnd ≠ none
      simp [Pipe.write, ChunkList.push_backAddr]
  | unwrite =>
    simp only [Pipe.step, Pipe.unwrite]
    split <;> exact ⟨h1, h2⟩
  | flush =>
    simp only [Pipe.step, Pipe.flush]
    split
    · exact ⟨h1, h2⟩
    · split <;> exact ⟨h2, h2⟩
  | read =>
    have hf := Pipe.check_read_frame s
    by_cases hc : (Pipe.check_read s).1 <;>
      simp only [Pipe.step, Pipe.read, hc, if_true, if_false] <;>
      exact ⟨by simp [hf.1, h1], by simp [hf.2, h2]⟩

theorem Pipe.runFrom_cursorsSome {T σ : Type} (P : Pool σ) (N : Nat) :
    ∀ (ops : List (PipeOp T)) (s : Pipe T σ),
    Pipe.cursorsSome s → Pipe.cursorsSome (Pipe.runFrom P N s ops)
  | [], s, h => h
  | op :: rest, s, h =>
    Pipe.runFrom_cursorsSome P N rest _ (Pipe.step_cursorsSome P N s op h)

theorem Pipe.init_cursorsSome {T σ : Type} (P : Pool σ) (N : Nat) (a0 : σ) :
    Pipe.cursorsSome (Pipe.init T P N a0) := by
  constructor <;>
    simp [Pipe.init, ChunkList.push_backAddr]

theorem Pipe.step_commitNone {T σ : Type} (P : Pool σ) (N : Nat) (s : Pipe T σ)
    (op : PipeOp T) (h : s.mCommitEnd = none)
    (hf : op = PipeOp.flush → s.mFlushEnd = s.mLastFlushEnd) :
    (Pipe.step P N s op).2.mCommitEnd = none := by
  cases op with
  | write v inc => cases inc <;> simpa [Pipe.step, Pipe.write] using h
  | unwrite =>
    simp only [Pipe.step, Pipe.unwrite]
    split <;> simpa using h
  | flush =>
    have he := hf rfl
    simp [Pipe.step, Pipe.flush, he, h]
  | read =>
    by_cases hc : (Pipe.check_read s).1 <;>
      simp only [Pipe.step, Pipe.read, hc, if_true, if_false] <;>
      exact Pipe.check_read_commitNone s h

theorem Pipe.runFrom_commitNone {T σ : Type} (P : Pool σ) (N : Nat) :
    ∀ (ops : List (PipeOp T)) (s : Pipe T σ),
    s.mCommitEnd = none → Pipe.noAdvFlush P N s ops = true →
    (Pipe.runFrom P N s ops).mCommitEnd = none := by
  intro ops
  induction ops with
  | nil => intro s h _; exact h
  | cons op rest ih =>
    intro s h hn
    simp only [Pipe.noAdvFlush, Bool.and_eq_true] at hn
    refine ih _ (Pipe.step_commitNone P N s op h ?_) hn.2
    intro hop
    subst hop
    simpa using hn.1

theorem Pipe.flush_false_of_asleep {T σ : Type} (s : Pipe T σ)
    (h1 : s.mCommitEnd = none) (h2 : s.mLastFlushEnd ≠ none)
    (h3 : s.mFlushEnd ≠ s.mLastFlushEnd) : (Pipe.flush s).1 = false := by
  have hne : s.mLastFlushEnd ≠ s.mFlushEnd := fun he => h3 he.symm
  have hcas : s.mCommitEnd ≠ s.mLastFlushEnd := by
    rw [h1]
    exact fun he => h2 he.symm
  simp [Pipe.flush, hne, hcas]

/-- C3 (amended): in every producer/consumer run from a fresh pipe, if a
read returns false (the consumer sleeps), then the next flush executed
with something new to publish (flushEnd different from lastFlushEnd, with
only non-advancing flush calls in between) returns false. By
contraposition, a frontier-advancing flush that returns true implies the
consumer has not slept since the last flush; the original unrestricted
converse is false for no-op flush calls (see the counterexample). -/
theorem c3_sleep_signalling {T σ : Type} (P : Pool σ) (N : Nat) (a0 : σ)
    (a b : List (PipeOp T))
    (hsleep : (Pipe.read P N (Pipe.runFrom P N (Pipe.init T P N a0) a)).1 = false)
    (hquiet : Pipe.noAdvFlush P N
      (Pipe.read P N (Pipe.runFrom P N (Pipe.init T P N a0) a)).2.2 b = true)
    (hadv : (Pipe.runFrom P N (Pipe.read P N (Pipe.runFrom P N (Pipe.init T P N a0) a)).2.2 b).mFlushEnd
      ≠ (Pipe.runFrom P N (Pipe.read P N (Pipe.runFrom P N (Pipe.init T P N a0) a)).2.2 b).mLastFlushEnd) :
    (Pipe.flush (Pipe.runFrom P N
      (Pipe.read P N (Pipe.runFrom P N (Pipe.init T P N a0) a)).2.2 b)).1 = false := by
  have hcs0 : Pipe.cursorsSome (Pipe.runFrom P N (Pipe.init T P N a0) a) :=
    Pipe.runFrom_cursorsSome P N a _ (Pipe.init_cursorsSome P N a0)
  have hcs1 : Pipe.cursorsSome (Pipe.read P N (Pipe.runFrom P N (Pipe.init T P N a0) a)).2.2 := by
    have hst := Pipe.step_cursorsSome P N (Pipe.runFrom P N (Pipe.init T P N a0) a) PipeOp.read hcs0
    simpa [Pipe.step] using hst
  have hcs2 := Pipe.runFrom_cursorsSome P N b _ hcs1
  have hn1 : (Pipe.read P N (Pipe.runFrom P N (Pipe.init T P N a0) a)).2.2.mCommitEnd = none :=
    Pipe.read_false_asleep P N _ hsleep
  have hn2 := Pipe.runFrom_commitNone P N b _ hn1 hquiet
  exact Pipe.flush_false_of_asleep _ hn2 hcs2.1 hadv

/-- Counterexample to C3 as stated: in the run write(0,false); flush;
read; read; flush, the second read returns false (the consumer sleeps),
no flush intervenes, and yet the final flush returns true, because it has
nothing new to publish (lastFlushEnd = flushEnd) - contradicting
"every flush() that returns true implies the consumer has not slept since
the last flush". -/
theorem c3_converse_counterexample :
    (Pipe.step pool1 128
      (Pipe.runFrom pool1 128 (Pipe.init Int pool1 128 {})
        [PipeOp.write 0 false, PipeOp.flush, PipeOp.read]) PipeOp.read).1 = some false ∧
    (Pipe.step pool1 128
      (Pipe.runFrom pool1 128 (Pipe.init Int pool1 128 {})
        [PipeOp.write 0 false, PipeOp.flush, PipeOp.read, PipeOp.read]) PipeOp.flush).1
      = some true := by
  decide

/-- Witness for C3: a concrete sleeping run; after the consumer sleeps and
the producer writes one more element, the advancing flush returns false. -/
theorem c3_sleep_signalling_witness :
    (Pipe.read pool1 128 (Pipe.runFrom pool1 128 (Pipe.init Int pool1 128 {})
        [PipeOp.write 0 false, PipeOp.flush, PipeOp.read])).1 = false ∧
    Pipe.noAdvFlush pool1 128
      (Pipe.read pool1 128 (Pipe.runFrom pool1 128 (Pipe.init Int pool1 128 {})
        [PipeOp.write 0 false, PipeOp.flush, PipeOp.read])).2.2 [PipeOp.write 1 false] = true ∧
    (Pipe.flush (Pipe.runFrom pool1 128
      (Pipe.read pool1 128 (Pipe.runFrom pool1 128 (Pipe.init Int pool1 128 {})
        [PipeOp.write 0 false, PipeOp.flush, PipeOp.read])).2.2 [PipeOp.write 1 false])).1
      = false :=
  ⟨by decide, by decide,
   c3_sleep_signalling pool1 128 {} [PipeOp.write 0 false, PipeOp.flush, PipeOp.read]
     [PipeOp.write 1 false] (by decide) (by decide) (by decide)⟩

set_option maxHeartbeats 4000000

theorem writeSeq_add (a b c : Nat) (s : Pipe Int MemoryAllocator1) :
    writeSeq a (b + c) s = writeSeq (a + b) c (writeSeq a b s) := by
  unfold writeSeq
  rw [Nat.add_comm b c, ← List.range'_append_1, List.foldl_append]

theorem Pipe.unwriteN_add {T σ : Type} (P : Pool σ) (N : Nat) (a b : Nat) (s : Pipe T σ) :
    Pipe.unwriteN P N (a + b) s =
      ((Pipe.unwriteN P N a s).1 ++ (Pipe.unwriteN P N b (Pipe.unwriteN P N a s).2).1,
       (Pipe.unwriteN P N b (Pipe.unwriteN P N a s).2).2) := by
  induction a generalizing s with
  | zero => simp [Pipe.unwriteN]
  | succ n ih =>
    rw [Nat.succ_add]
    simp [Pipe.unwriteN, ih]

theorem Pipe.readN_add {T σ : Type} (P : Pool σ) (N : Nat) (a b : Nat) (s : Pipe T σ) :
    Pipe.readN P N (a + b) s =
      ((Pipe.readN P N a s).1 ++ (Pipe.readN P N b (Pipe.readN P N a s).2).1,
       (Pipe.readN P N b (Pipe.readN P N a s).2).2) := by
  induction a generalizing s with
  | zero => simp [Pipe.readN]
  | succ n ih =>
    rw [Nat.succ_add]
    simp [Pipe.readN, ih]

theorem Pipe.unwriteProbe_add {T σ : Type} (P : Pool σ) (N : Nat) (a b : Nat) (s : Pipe T σ) :
    Pipe.unwriteProbe P N (a + b) s =
      Pipe.unwriteProbe P N a s ++ Pipe.unwriteProbe P N b (Pipe.unwriteN P N a s).2 := by
  induction a generalizing s with
  | zero => simp [Pipe.unwriteProbe, Pipe.unwriteN]
  | succ n ih =>
    rw [Nat.succ_add]
    simp [Pipe.unwriteProbe, Pipe.unwriteN, ih]

-- stage lemmas (stubbed while drafting; real proofs are by decide)
theorem c4aInit : Pipe.init Int pool1 128 {} = aState 0 := by decide
theorem c4aSteps : ∀ k ∈ [0, 128, 256, 384, 512, 640, 768, 896],
    writeSeq k 128 (aState k) = aState (k + 128) := by decide
theorem c4bInit : bState 0 = aState 1024 := by decide
theorem c4bSteps : ∀ m ∈ [0, 128, 256, 384], Pipe.unwriteN pool1 128 128 (bState m)
    = ((List.range 128).map (fun t => (true, some (1023 - Int.ofNat (m + t)))), bState (m + 128)) := by decide
theorem c4bProbes : ∀ m ∈ [0, 128, 256, 384],
    Pipe.unwriteProbe pool1 128 128 (bState m) = List.replicate 128 false := by decide
theorem c4bFinalProbe : (Pipe.read pool1 128 (bState 512)).1 = false := by decide
theorem c4cInit : Pipe.flush (Pipe.write pool1 128 (-1) false (bState 512)) = (true, cState 0) := by decide
theorem c4cSteps : ∀ r ∈ [0, 128, 256, 384], Pipe.readN pool1 128 128 (cState r)
    = ((List.range 128).map (fun t => (true, some (Int.ofNat (r + t)))), cState (r + 128)) := by decide
theorem c4cFinal : (Pipe.readN pool1 128 2 (cState 512)).1 = [(true, some (-1)), (false, none)] := by decide


theorem c4writesEq : c4afterWrites = aState 1024 := by
  have h : c4afterWrites = writeSeq 0 1024 (aState 0) := by
    rw [c4afterWrites, writeSeq, List.range_eq_range', c4aInit]
  rw [h]
  calc writeSeq 0 1024 (aState 0)
      = writeSeq 128 896 (writeSeq 0 128 (aState 0)) := writeSeq_add 0 128 896 _
    _ = writeSeq 128 896 (aState 128) := by rw [c4aSteps 0 (by decide)]
    _ = writeSeq 256 768 (writeSeq 128 128 (aState 128)) := writeSeq_add 128 128 768 _
    _ = writeSeq 256 768 (aState 256) := by rw [c4aSteps 128 (by decide)]
    _ = writeSeq 384 640 (writeSeq 256 128 (aState 256)) := writeSeq_add 256 128 640 _
    _ = writeSeq 384 640 (aState 384) := by rw [c4aSteps 256 (by decide)]
    _ = writeSeq 512 512 (writeSeq 384 128 (aState 384)) := writeSeq_add 384 128 512 _
    _ = writeSeq 512 512 (aState 512) := by rw [c4aSteps 384 (by decide)]
    _ = writeSeq 640 384 (writeSeq 512 128 (aState 512)) := writeSeq_add 512 128 384 _
    _ = writeSeq 640 384 (aState 640) := by rw [c4aSteps 512 (by decide)]
    _ = writeSeq 768 256 (writeSeq 640 128 (aState 640)) := writeSeq_add 640 128 256 _
    _ = writeSeq 768 256 (aState 768) := by rw [c4aSteps 640 (by decide)]
    _ = writeSeq 896 128 (writeSeq 768 128 (aState 768)) := writeSeq_add 768 128 128 _
    _ = writeSeq 896 128 (aState 896) := by rw [c4aSteps 768 (by decide)]
    _ = aState 1024 := by rw [c4aSteps 896 (by decide)]

theorem c4unwEq : Pipe.unwriteN pool1 128 512 (bState 0) =
    ((List.range 512).map (fun k => (true, some (1023 - Int.ofNat k))), bState 512) := by
  have b0f : (Pipe.unwriteN pool1 128 128 (bState 0)).1
      = (List.range 128).map (fun t => (true, some (1023 - Int.ofNat (0 + t)))) := by
    rw [c4bSteps 0 (by decide)]
  have b0s : (Pipe.unwriteN pool1 128 128 (bState 0)).2 = bState 128 := by
    rw [c4bSteps 0 (by decide)]
  have b1f : (Pipe.unwriteN pool1 128 128 (bState 128)).1
      = (List.range 128).map (fun t => (true, some (1023 - Int.ofNat (128 + t)))) := by
    rw [c4bSteps 128 (by decide)]
  have b1s : (Pipe.unwriteN pool1 128 128 (bState 128)).2 = bState 256 := by
    rw [c4bSteps 128 (by decide)]
  have b2f : (Pipe.unwriteN pool1 128 128 (bState 256)).1
      = (List.range 128).map (fun t => (true, some (1023 - Int.ofNat (256 + t)))) := by
    rw [c4bSteps 256 (by decide)]
  have b2s : (Pipe.unwriteN pool1 128 128 (bState 256)).2 = bState 384 := by
    rw [c4bSteps 256 (by decide)]
  have b3f : (Pipe.unwriteN pool1 128 128 (bState 384)).1
      = (List.range 128).map (fun t => (true, some (1023 - Int.ofNat (384 + t)))) := by
    rw [c4bSteps 384 (by decide)]
  have b3s : (Pipe.unwriteN pool1 128 128 (bState 384)).2 = bState 512 := by
    rw [c4bSteps 384 (by decide)]
  have e1 : Pipe.unwriteN pool1 128 512 (bState 0) =
      ((Pipe.unwriteN pool1 128 128 (bState 0)).1
        ++ (Pipe.unwriteN pool1 128 384 (Pipe.unwriteN pool1 128 128 (bState 0)).2).1,
       (Pipe.unwriteN pool1 128 384 (Pipe.unwriteN pool1 128 128 (bState 0)).2).2) :=
    Pipe.unwriteN_add pool1 128 128 384 (bState 0)
  have e2 : Pipe.unwriteN pool1 128 384 (bState 128) =
      ((Pipe.unwriteN pool1 128 128 (bState 128)).1
        ++ (Pipe.unwriteN pool1 128 256 (Pipe.unwriteN pool1 128 128 (bState 128)).2).1,
       (Pipe.unwriteN pool1 128 256 (Pipe.unwriteN pool1 128 128 (bState 128)).2).2) :=
    Pipe.unwriteN_add pool1 128 128 256 (bState 128)
  have e3 : Pipe.unwriteN pool1 128 256 (bState 256) =
      ((Pipe.unwriteN pool1 128 128 (bState 256)).1
        ++ (Pipe.unwriteN pool1 128 128 (Pipe.unwriteN pool1 128 128 (bState 256)).2).1,
       (Pipe.unwriteN pool1 128 128 (Pipe.unwriteN pool1 128 128 (bState 256)).2).2) :=
    Pipe.unwriteN_add pool1 128 128 128 (bState 256)
  rw [e1, b0s, e2, b1s, e3, b2s, b3s, b0f, b1f, b2f, b3f]
  refine Prod.ext ?_ rfl
  decide

theorem c4probeEq : Pipe.unwriteProbe pool1 128 512 (bState 0) = List.replicate 512 false := by
  have b0s : (Pipe.unwriteN pool1 128 128 (bState 0)).2 = bState 128 := by
    rw [c4bSteps 0 (by decide)]
  have b1s : (Pipe.unwriteN pool1 128 128 (bState 128)).2 = bState 256 := by
    rw [c4bSteps 128 (by decide)]
  have b2s : (Pipe.unwriteN pool1 128 128 (bState 256)).2 = bState 384 := by
    rw [c4bSteps 256 (by decide)]
  have p1 : Pipe.unwriteProbe pool1 128 512 (bState 0) =
      Pipe.unwriteProbe pool1 128 128 (bState 0)
        ++ Pipe.unwriteProbe pool1 128 384 (Pipe.unwriteN pool1 128 128 (bState 0)).2 :=
    Pipe.unwriteProbe_add pool1 128 128 384 (bState 0)
  have p2 : Pipe.unwriteProbe pool1 128 384 (bState 128) =
      Pipe.unwriteProbe pool1 128 128 (bState 128)
        ++ Pipe.unwriteProbe pool1 128 256 (Pipe.unwriteN pool1 128 128 (bState 128)).2 :=
    Pipe.unwriteProbe_add pool1 128 128 256 (bState 128)
  have p3 : Pipe.unwriteProbe pool1 128 256 (bState 256) =
      Pipe.unwriteProbe pool1 128 128 (bState 256)
        ++ Pipe.unwriteProbe pool1 128 128 (Pipe.unwriteN pool1 128 128 (bState 256)).2 :=
    Pipe.unwriteProbe_add pool1 128 128 128 (bState 256)
  rw [p1, b0s, p2, b1s, p3, b2s,
      c4bProbes 0 (by decide), c4bProbes 128 (by decide),
      c4bProbes 256 (by decide), c4bProbes 384 (by decide)]
  decide

theorem c4readsEq : (Pipe.readN pool1 128 514 (cState 0)).1 =
    (List.range 512).map (fun i => (true, some (Int.ofNat i))) ++ [(true, some (-1)), (false, none)] := by
  have c0f : (Pipe.readN pool1 128 128 (cState 0)).1
      = (List.range 128).map (fun t => (true, some (Int.ofNat (0 + t)))) := by
    rw [c4cSteps 0 (by decide)]
  have c0s : (Pipe.readN pool1 128 128 (cState 0)).2 = cState 128 := by
    rw [c4cSteps 0 (by decide)]
  have c1f : (Pipe.readN pool1 128 128 (cState 128)).1
      = (List.range 128).map (fun t => (true, some (Int.ofNat (128 + t)))) := by
    rw [c4cSteps 128 (by decide)]
  have c1s : (Pipe.readN pool1 128 128 (cState 128)).2 = cState 256 := by
    rw [c4cSteps 128 (by decide)]
  have c2f : (Pipe.readN pool1 128 128 (cState 256)).1
      = (List.range 128).map (fun t => (true, some (Int.ofNat (256 + t)))) := by
    rw [c4cSteps 256 (by decide)]
  have c2s : (Pipe.readN pool1 128 128 (cState 256)).2 = cState 384 := by
    rw [c4cSteps 256 (by decide)]
  have c3f : (Pipe.readN pool1 128 128 (cState 384)).1
      = (List.range 128).map (fun t => (true, some (Int.ofNat (384 + t)))) := by
    rw [c4cSteps 384 (by decide)]
  have c3s : (Pipe.readN pool1 128 128 (cState 384)).2 = cState 512 := by
    rw [c4cSteps 384 (by decide)]
  have e1 : Pipe.readN pool1 128 514 (cState 0) =
      ((Pipe.readN pool1 128 128 (cState 0)).1
        ++ (Pipe.readN pool1 128 386 (Pipe.readN pool1 128 128 (cState 0)).2).1,
       (Pipe.readN pool1 128 386 (Pipe.readN pool1 128 128 (cState 0)).2).2) :=
    Pipe.readN_add pool1 128 128 386 (cState 0)
  have e2 : Pipe.readN pool1 128 386 (cState 128) =
      ((Pipe.readN pool1 128 128 (cState 128)).1
        ++ (Pipe.readN pool1 128 258 (Pipe.readN pool1 128 128 (cState 128)).2).1,
       (Pipe.readN pool1 128 258 (Pipe.readN pool1 128 128 (cState 128)).2).2) :=
    Pipe.readN_add pool1 128 128 258 (cState 128)
  have e3 : Pipe.readN pool1 128 258 (cState 256) =
      ((Pipe.readN pool1 128 128 (cState 256)).1
        ++ (Pipe.readN pool1 128 130 (Pipe.readN pool1 128 128 (cState 256)).2).1,
       (Pipe.readN pool1 128 130 (Pipe.readN pool1 128 128 (cState 256)).2).2) :=
    Pipe.readN_add pool1 128 128 130 (cState 256)
  have e4 : Pipe.readN pool1 128 130 (cState 384) =
      ((Pipe.readN pool1 128 128 (cState 384)).1
        ++ (Pipe.readN pool1 128 2 (Pipe.readN pool1 128 128 (cState 384)).2).1,
       (Pipe.readN pool1 128 2 (Pipe.readN pool1 128 128 (cState 384)).2).2) :=
    Pipe.readN_add pool1 128 128 2 (cState 384)
  rw [e1, c0s, e2, c1s, e3, c2s, e4, c3s]
  dsimp only
  rw [c0f, c1f, c2f, c3f, c4cFinal]
  decide

/-- C4: the demonstration program end to end (T = int, default N = 128,
S = 1): after write(i, true) for i = 0..1023 with no flush, 512 successive
unwrite calls all return true yielding 1023, 1022, ..., 512 in that order,
while a read evaluated at every state of that phase (and after it) returns
false; then after write(-1, false) and flush(), successive reads return
true yielding exactly 0, 1, ..., 511, -1 in that order, and the next read
returns false. -/
theorem c4_end_to_end :
    (Pipe.unwriteN pool1 128 512 c4afterWrites).1
      = (List.range 512).map (fun k => (true, some (1023 - Int.ofNat k))) ∧
    Pipe.unwriteProbe pool1 128 512 c4afterWrites = List.replicate 512 false ∧
    (Pipe.read pool1 128 (Pipe.unwriteN pool1 128 512 c4afterWrites).2).1 = false ∧
    (Pipe.readN pool1 128 514
      (Pipe.flush (Pipe.write pool1 128 (-1) false
        (Pipe.unwriteN pool1 128 512 c4afterWrites).2)).2).1
      = (List.range 512).map (fun i => (true, some (Int.ofNat i)))
          ++ [(true, some (-1)), (false, none)] := by
  have hw : c4afterWrites = bState 0 := by rw [c4writesEq, c4bInit]
  have hu2 : (Pipe.unwriteN pool1 128 512 c4afterWrites).2 = bState 512 := by
    rw [hw, c4unwEq]
  refine ⟨?_, ?_, ?_, ?_⟩
  · rw [hw, c4unwEq]
  · rw [hw, c4probeEq]
  · rw [hu2, c4bFinalProbe]
  · have hflush : (Pipe.flush (Pipe.write pool1 128 (-1) false
        (Pipe.unwriteN pool1 128 512 c4afterWrites).2)).2 = cState 0 := by
      rw [hu2, c4cInit]
    rw [hflush, c4readsEq]
